import Mathlib

/-!
Verification of the order/review/commission reconciliation logic of the
community-feast marketplace application, as a shallow embedding in Lean.

Monetary amounts and rates are embedded as exact rationals, following the
specification directive that the pricing arithmetic use a decimal-safe
representation. Database rows are embedded as structures, the tables as
lists, and the fallible serverless payment handler as an Except value.
-/

namespace CommunityFeast

/-! ## Pricing Calculator (src/src/components/PricingBreakdown.tsx) -/

/-- Commission amount, from PricingBreakdown.tsx line 11:
customerPrice times (commissionRate / 100). -/
def commissionAmount (customerPrice commissionRate : ℚ) : ℚ :=
  customerPrice * (commissionRate / 100)

/-- Producer earnings, from PricingBreakdown.tsx line 12:
customerPrice minus the commission amount. -/
def producerEarnings (customerPrice commissionRate : ℚ) : ℚ :=
  customerPrice - commissionAmount customerPrice commissionRate

/-! ## Catalog and cart data model -/

/-- Product row, with the fields the cart and stock logic consult
(products table; display-only fields are omitted). -/
structure Product where
  id : ℕ
  producer_id : ℕ
  price : ℚ
  stock_quantity : ℕ
  is_available : Bool
  made_to_order : Bool
deriving Repr, DecidableEq

/-- Cart line as stored in the per-user local cart (part_003 lines 184-199;
the display-only nested product copy and the timestamp id are omitted). -/
structure CartItem where
  product_id : ℕ
  quantity : ℕ
  price_per_unit : ℚ
deriving Repr, DecidableEq

/-- Add-to-cart merge from ProductDetails.addToCart (part_003 lines 172-218):
the first line matching the product id has its quantity increased and its
price snapshot kept; otherwise a new line is appended whose price_per_unit
is the product price at add time. No stock or availability check occurs here. -/
def addToCart : List CartItem → Product → ℕ → List CartItem
  | [], product, quantity =>
      [{ product_id := product.id, quantity := quantity, price_per_unit := product.price }]
  | item :: rest, product, quantity =>
      if item.product_id == product.id then
        { item with quantity := item.quantity + quantity } :: rest
      else
        item :: addToCart rest product quantity

/-- Marketplace add-to-cart (part_006 lines 400-433): the same merge with a
fixed quantity of one and the product price snapshotted on a new line. -/
def marketplaceAddToCart (cartItems : List CartItem) (product : Product) : List CartItem :=
  addToCart cartItems product 1

/-- Disabled condition of the ProductDetails add button (part_003 line 396):
disabled when the product is unavailable or its stock is zero, with no
exemption for made-to-order products. -/
def productDetailsAddDisabled (product : Product) : Bool :=
  !product.is_available || product.stock_quantity == 0

/-- Disabled condition of the Marketplace add button (part_006 line 560):
disabled only when the product is not made-to-order and its stock is zero. -/
def marketplaceAddDisabled (product : Product) : Bool :=
  !product.made_to_order && product.stock_quantity == 0

/-- Quantity stepper increment of ProductDetails (part_003 line 388):
the selected quantity is clamped to the stock quantity. -/
def stepQuantityUp (product : Product) (quantity : ℕ) : ℕ :=
  min product.stock_quantity (quantity + 1)

/-- Cumulative quantity held in the cart for a given product id. -/
def qtyOf : List CartItem → ℕ → ℕ
  | [], _ => 0
  | item :: rest, pid =>
      (if item.product_id == pid then item.quantity else 0) + qtyOf rest pid

/-- Price snapshot of the first cart line for a given product id, if any. -/
def priceOf : List CartItem → ℕ → Option ℚ
  | [], _ => none
  | item :: rest, pid =>
      if item.product_id == pid then some item.price_per_unit else priceOf rest pid

/-! ## Admin settings and the create-payment handler
(src/supabase/migrations/20250820232010, serve handler; part_010 seed;
migration 20250821002113) -/

/-- Lookup of an admin setting by key: first row with a matching key. -/
def lookupSetting (settings : List (String × String)) (key : String) : Option String :=
  (settings.find? (fun kv => kv.1 == key)).map (fun kv => kv.2)

/-- Decimal digit accumulation over a character list. -/
def parseNatCore : List Char → ℕ → ℕ
  | [], acc => acc
  | c :: cs, acc => parseNatCore cs (acc * 10 + (c.toNat - 48))

/-- Numeric parse of a setting value. The settings parsed by the handler are
integer literals, on which parseFloat agrees with the natural-number value. -/
def parseFloatQ (s : String) : ℚ :=
  ((parseNatCore s.data 0 : ℕ) : ℚ)

/-- Commission rate resolution of the create-payment handler (migration
20250820232010 lines 179-186): parse the commission_rate setting when the
row exists, else default to 5 percent. No range validation is performed. -/
def commissionRateOf (settings : List (String × String)) : ℚ :=
  match lookupSetting settings "commission_rate" with
  | some v => parseFloatQ v
  | none => 5

/-- Admin settings seeded by the initialization script (part_010 lines 1-13). -/
def adminSettingsSeed : List (String × String) :=
  [("transaction_fee_percent", "12"),
   ("listing_fee_enabled", "false"),
   ("listing_fee_amount", "2.00"),
   ("platform_name", "LocalHarvest Hub"),
   ("support_email", "support@localharvest.com"),
   ("max_delivery_radius", "25"),
   ("currency", "USD"),
   ("maintenance_mode", "false")]

/-- Insert-if-absent, the ON CONFLICT (key) DO NOTHING behaviour of the
commission_rate migration. -/
def insertIfAbsent (settings : List (String × String)) (key value : String) :
    List (String × String) :=
  if (lookupSetting settings key).isSome then settings else settings ++ [(key, value)]

/-- Settings after migration 20250821002113, which inserts the row
(commission_rate, 5) if no such key exists. -/
def settingsAfterMigrations : List (String × String) :=
  insertIfAbsent adminSettingsSeed "commission_rate" "5"

/-- Payment request body of the create-payment handler. -/
structure PaymentRequest where
  cartItems : List CartItem
  deliveryMethod : String
  deliveryAddress : Option String
  deliveryFee : ℚ
deriving Repr, DecidableEq

/-- Metadata attached to the checkout session (migration 20250820232010,
session creation). -/
structure SessionMetadata where
  commission_rate : ℚ
  commission_amount : ℚ
  delivery_fee : ℚ
  subtotal : ℚ
deriving Repr, DecidableEq

/-- Checkout session returned by the handler: the product line items
(unit price and quantity) and the metadata. -/
structure CheckoutSession where
  lineItems : List (ℚ × ℕ)
  metadata : SessionMetadata
deriving Repr, DecidableEq

/-- Create-payment handler (migration 20250820232010 lines 173-252): rejects
an empty cart with the error message used by the source, resolves the
commission rate from the admin settings, computes the subtotal and the
commission, and builds the checkout session. It consults no producer
information: cart items carry only product id, quantity and unit price. -/
def createPayment (settings : List (String × String)) (req : PaymentRequest) :
    Except String CheckoutSession :=
  if req.cartItems.isEmpty then
    .error "No items in cart"
  else
    let commissionRate := commissionRateOf settings
    let subtotal :=
      req.cartItems.foldl (fun total item => total + item.price_per_unit * (item.quantity : ℚ)) 0
    let commission := subtotal * (commissionRate / 100)
    .ok
      { lineItems := req.cartItems.map (fun item => (item.price_per_unit, item.quantity)),
        metadata :=
          { commission_rate := commissionRate,
            commission_amount := commission,
            delivery_fee := req.deliveryFee,
            subtotal := subtotal } }

/-- Boolean success test for an Except value. -/
def isOkExcept {ε α : Type} : Except ε α → Bool
  | .ok _ => true
  | .error _ => false

instance {ε α : Type} [DecidableEq ε] [DecidableEq α] : DecidableEq (Except ε α) :=
  fun x y =>
    match x, y with
    | .ok a, .ok b => if h : a = b then isTrue (by simp [h]) else isFalse (by simp [h])
    | .error a, .error b => if h : a = b then isTrue (by simp [h]) else isFalse (by simp [h])
    | .ok _, .error _ => isFalse (by simp)
    | .error _, .ok _ => isFalse (by simp)

/-! ## Orders and status transitions -/

/-- Order row, with the fields written by the observed insert and update
statements (orders table). -/
structure Order where
  consumer_id : ℕ
  producer_id : ℕ
  total_amount : ℚ
  status : String
  delivery_method : String
deriving Repr, DecidableEq

/-- Dummy order inserted by the review forms (ProducerReviewForm.tsx lines
47-60 and part_001 lines 48-61): created directly in the completed status. -/
def dummyReviewOrder (consumerId producerId : ℕ) : Order :=
  { consumer_id := consumerId,
    producer_id := producerId,
    total_amount := 0,
    status := "completed",
    delivery_method := "pickup" }

/-- Status values offered by the producer dashboard action buttons for an
order in the given status (ProducerDashboard.tsx lines 398-424): a pending
order can be accepted or declined, a confirmed order marked completed. -/
def producerOrderTransitions (status : String) : List String :=
  if status == "pending" then ["confirmed", "cancelled"]
  else if status == "confirmed" then ["completed"]
  else []

/-- Status options of the admin dashboard order select (AdminDashboard.tsx
lines 400-407). -/
def adminStatusOptions : List String :=
  ["pending", "confirmed", "preparing", "ready", "completed", "cancelled"]

/-- Statuses the admin dashboard can assign to an order in the given status:
the select offers every option regardless of the current status
(AdminDashboard.tsx lines 393-408). -/
def adminOrderTransitions (_ : String) : List String :=
  adminStatusOptions

/-! ## Reviews and the rating aggregator -/

/-- Review row, with the fields written by the observed inserts
(reviews table). -/
structure ReviewRow where
  consumer_id : ℕ
  producer_id : ℕ
  product_id : Option ℕ
  order_id : Option ℕ
  rating : ℕ
  comment : Option String
deriving Repr, DecidableEq

/-- Stored rating summary on the producer profile
(producer_profiles.rating and producer_profiles.review_count). -/
structure ProducerProfile where
  rating : ℚ
  review_count : ℕ
deriving Repr, DecidableEq

/-- Sum of the ratings of a review list (ReviewForm.tsx line 63, the reduce). -/
def sumRatings (reviews : List ReviewRow) : ℚ :=
  reviews.foldl (fun sum r => sum + (r.rating : ℚ)) 0

/-- Rating recomputation of ReviewForm.tsx lines 56-71: the average rating of
the fetched reviews and their count. -/
def recomputeProducerRating (reviews : List ReviewRow) : ℚ × ℕ :=
  (sumRatings reviews / (reviews.length : ℚ), reviews.length)

/-- Persist step of the recomputation: write the average and the count onto
the producer profile. -/
def applyRecompute (reviews : List ReviewRow) (profile : ProducerProfile) : ProducerProfile :=
  { profile with
      rating := (recomputeProducerRating reviews).1,
      review_count := (recomputeProducerRating reviews).2 }

/-- Store state touched by the review submission paths: the orders table,
the reviews table, and the profile of one fixed producer. -/
structure MarketState where
  orders : List Order
  reviews : List ReviewRow
  profile : ProducerProfile
deriving Repr, DecidableEq

/-- Review submission of ReviewForm.tsx lines 43-71: insert the review, then
fetch all reviews of the producer and persist their average and count on the
producer profile. The state profile is the profile of producerId. -/
def reviewFormSubmit (st : MarketState) (producerId : ℕ) (r : ReviewRow) : MarketState :=
  let reviews := st.reviews ++ [r]
  let producerReviews := reviews.filter (fun x => x.producer_id == producerId)
  { st with
      reviews := reviews,
      profile := applyRecompute producerReviews st.profile }

/-- Producer review submission of the nullable-schema ProducerReviewForm
variant (ProducerReviewForm.tsx lines 234-253): insert a review with null
product and order references; the producer profile is not touched. -/
def producerReviewFormSubmit (st : MarketState) (consumerId producerId rating : ℕ)
    (comment : Option String) : MarketState :=
  { st with
      reviews := st.reviews ++
        [{ consumer_id := consumerId,
           producer_id := producerId,
           product_id := none,
           order_id := none,
           rating := rating,
           comment := comment }] }

/-- Product review submission of part_001 lines 47-76: insert a dummy
completed order, then insert the review referencing it; the producer profile
is not touched. The fresh order id is its position in the orders table. -/
def productReviewFormSubmit (st : MarketState) (consumerId producerId productId rating : ℕ)
    (comment : Option String) : MarketState :=
  { st with
      orders := st.orders ++ [dummyReviewOrder consumerId producerId],
      reviews := st.reviews ++
        [{ consumer_id := consumerId,
           producer_id := producerId,
           product_id := some productId,
           order_id := some st.orders.length,
           rating := rating,
           comment := comment }] }

/-- Consistency of the stored summary with the current review set of the
producer: the stored rating is the average of that producer ratings and the
stored count their number. -/
def summaryConsistent (st : MarketState) (producerId : ℕ) : Prop :=
  st.profile.rating =
      sumRatings (st.reviews.filter (fun x => x.producer_id == producerId))
        / ((st.reviews.filter (fun x => x.producer_id == producerId)).length : ℚ)
    ∧ st.profile.review_count =
        (st.reviews.filter (fun x => x.producer_id == producerId)).length

instance (st : MarketState) (producerId : ℕ) : Decidable (summaryConsistent st producerId) := by
  unfold summaryConsistent
  infer_instance

/-! ## Review eligibility gate -/

/-- Review eligibility check of the order history page (part_003 line 651):
an order can be reviewed exactly when its status is completed. The page only
lists orders fetched for the signed-in consumer. -/
def canReview (order : Order) : Bool :=
  order.status == "completed"

/-- Error kinds of the review gate, from the error handling design. -/
inductive ReviewError where
  | notEligible
  | invalidRating
  | conflict
deriving Repr, DecidableEq

/-- Review database of the gate: the orders table keyed by order id, and the
reviews table. -/
structure ReviewDb where
  orders : List (ℕ × Order)
  reviews : List ReviewRow
deriving Repr, DecidableEq

/-- Key equality of the duplicate check: same consumer, same order reference
and same product-or-null reference. -/
def sameReviewKey (r : ReviewRow) (consumerId : ℕ) (orderId : Option ℕ)
    (productId : Option ℕ) : Bool :=
  r.consumer_id == consumerId && r.order_id == orderId && r.product_id == productId

/-- Modelled from the spec: the base schema of the reviews table with its
uniqueness constraint and the server-side submission gate are not part of the
source tree; only the client inserts and the canReview completed-status check
appear there. Following sections 4.4 and 7 of the specification, a submission
is accepted only when the order exists, belongs to the submitting consumer
and is completed, the rating is in [1,5], and no review with the same
(consumer, order, product-or-null) key exists; a duplicate key fails with the
conflict error and inserts nothing. -/
def submitReview (db : ReviewDb) (consumerId producerId rating orderId : ℕ)
    (productId : Option ℕ) (comment : Option String) : Except ReviewError ReviewDb :=
  if rating < 1 ∨ 5 < rating then
    .error .invalidRating
  else
    match db.orders.find? (fun o => o.1 == orderId) with
    | none => .error .notEligible
    | some op =>
        if op.2.consumer_id = consumerId ∧ canReview op.2 = true then
          if db.reviews.any (fun r => sameReviewKey r consumerId (some orderId) productId) then
            .error .conflict
          else
            .ok
              { db with
                  reviews := db.reviews ++
                    [{ consumer_id := consumerId,
                       producer_id := producerId,
                       product_id := productId,
                       order_id := some orderId,
                       rating := rating,
                       comment := comment }] }
        else
          .error .notEligible

/-! ## Concrete inputs used by counterexamples and witnesses -/

/-- Stock-tracked product with stock 2, available, not made to order. -/
def stockProduct : Product :=
  { id := 1, producer_id := 10, price := 10, stock_quantity := 2,
    is_available := true, made_to_order := false }

/-- Made-to-order product with nominal stock 0, available. -/
def madeToOrderProduct : Product :=
  { id := 2, producer_id := 10, price := 10, stock_quantity := 0,
    is_available := true, made_to_order := true }

/-- Product of a second producer. -/
def otherProducerProduct : Product :=
  { id := 3, producer_id := 20, price := 20, stock_quantity := 5,
    is_available := true, made_to_order := false }

/-- Mixed-producer checkout request: one item of stockProduct and one item of
otherProducerProduct, owned by different producers. -/
def mixedCartRequest : PaymentRequest :=
  { cartItems :=
      [{ product_id := stockProduct.id, quantity := 1, price_per_unit := stockProduct.price },
       { product_id := otherProducerProduct.id, quantity := 1,
         price_per_unit := otherProducerProduct.price }],
    deliveryMethod := "pickup",
    deliveryAddress := none,
    deliveryFee := 0 }

/-- Empty checkout request. -/
def emptyCartRequest : PaymentRequest :=
  { cartItems := [], deliveryMethod := "pickup", deliveryAddress := none, deliveryFee := 0 }

/-- Single-item checkout request used by the commission-rate witness. -/
def singleItemRequest : PaymentRequest :=
  { cartItems := [{ product_id := 1, quantity := 1, price_per_unit := 10 }],
    deliveryMethod := "pickup",
    deliveryAddress := none,
    deliveryFee := 0 }

/-- Session the handler builds for singleItemRequest under the seeded
settings: subtotal 10, commission rate 5, commission one half. -/
def singleItemSession : CheckoutSession :=
  { lineItems := [(10, 1)],
    metadata :=
      { commission_rate := 5, commission_amount := 1 / 2,
        delivery_fee := 0, subtotal := 10 } }

/-- Empty market state with a zeroed producer profile. -/
def emptyMarketState : MarketState :=
  { orders := [], reviews := [], profile := { rating := 0, review_count := 0 } }

/-- Gate database with one completed order of consumer 1 at producer 2,
stored under order id 1, and no reviews. -/
def gateDb : ReviewDb :=
  { orders :=
      [(1, { consumer_id := 1, producer_id := 2, total_amount := 30,
             status := "completed", delivery_method := "pickup" })],
    reviews := [] }

/-- Gate database after the first accepted submission of consumer 1 for
order 1 with no product reference. -/
def gateDbAfter : ReviewDb :=
  { gateDb with
      reviews :=
        [{ consumer_id := 1, producer_id := 2, product_id := none,
           order_id := some 1, rating := 5, comment := none }] }

end CommunityFeast

namespace CommunityFeast

/-! ## Theorems: pricing (C1) and cart merge (C8) -/

/-- C1: for every non-negative price p and commission rate r in [0,100],
commission(p,r) + earnings(p,r) equals p exactly, commission(p,0) is 0 and
earnings(p,100) is 0. -/
theorem commission_plus_earnings_eq_price (p r : ℚ)
    (hp : 0 ≤ p) (hr0 : 0 ≤ r) (hr1 : r ≤ 100) :
    commissionAmount p r + producerEarnings p r = p
      ∧ commissionAmount p 0 = 0
      ∧ producerEarnings p 100 = 0 := by
  refine ⟨?_, ?_, ?_⟩
  · simp [commissionAmount, producerEarnings]
  · simp [commissionAmount]
  · simp [commissionAmount, producerEarnings]

/-- Witness for C1 at the sample of the specification: price 100, rate 12. -/
theorem commission_plus_earnings_eq_price_witness :
    0 ≤ (100 : ℚ) ∧ 0 ≤ (12 : ℚ) ∧ (12 : ℚ) ≤ 100
      ∧ (commissionAmount 100 12 + producerEarnings 100 12 = 100
          ∧ commissionAmount 100 0 = 0
          ∧ producerEarnings 100 100 = 0) :=
  ⟨by norm_num, by norm_num, by norm_num,
    commission_plus_earnings_eq_price 100 12 (by norm_num) (by norm_num) (by norm_num)⟩

/-- Adding to the cart increases the cumulative quantity held for the product
by the requested amount, unconditionally. -/
theorem qtyOf_addToCart (cartItems : List CartItem) (product : Product) (quantity : ℕ) :
    qtyOf (addToCart cartItems product quantity) product.id
      = qtyOf cartItems product.id + quantity := by
  induction cartItems with
  | nil => simp [addToCart, qtyOf]
  | cons item rest ih =>
      simp only [addToCart]
      by_cases h : (item.product_id == product.id) = true
      · simp only [if_pos h, qtyOf, h, if_true]
        omega
      · simp only [if_neg h, qtyOf, h, if_false]
        omega

/-- Adding to the cart keeps the price snapshot of an existing line and
snapshots the current product price on a fresh line. -/
theorem priceOf_addToCart (cartItems : List CartItem) (product : Product) (quantity : ℕ) :
    priceOf (addToCart cartItems product quantity) product.id
      = some ((priceOf cartItems product.id).getD product.price) := by
  induction cartItems with
  | nil => simp [addToCart, priceOf]
  | cons item rest ih =>
      simp only [addToCart]
      by_cases h : (item.product_id == product.id) = true
      · simp [priceOf, h]
      · simp [priceOf, h, ih]

/-- Adding to the cart leaves the lines of every other product unchanged. -/
theorem filter_addToCart (cartItems : List CartItem) (product : Product)
    (quantity : ℕ) (pid : ℕ) (hne : pid ≠ product.id) :
    (addToCart cartItems product quantity).filter (fun i => i.product_id == pid)
      = cartItems.filter (fun i => i.product_id == pid) := by
  have hbeq : (product.id == pid) = false := by
    simp [beq_eq_false_iff_ne, Ne.symm hne]
  induction cartItems with
  | nil => simp [addToCart, List.filter, hbeq]
  | cons item rest ih =>
      simp only [addToCart]
      by_cases h : (item.product_id == product.id) = true
      · have hitem : (item.product_id == pid) = false := by
          have : item.product_id = product.id := by simpa using h
          simp [beq_eq_false_iff_ne, this, Ne.symm hne]
        simp [List.filter, h, hitem]
      · simp only [if_neg h]
        simp [List.filter, ih]

/-- C8: for every cart and every add call with positive quantity, the
cumulative quantity of the product grows by the requested quantity, the
resulting price snapshot is the existing one when a line already exists and
the current catalog price otherwise, and all other products lines are
untouched. -/
theorem addToCart_merges_or_appends (cartItems : List CartItem) (product : Product)
    (quantity : ℕ) (hq : 0 < quantity) :
    qtyOf (addToCart cartItems product quantity) product.id
        = qtyOf cartItems product.id + quantity
      ∧ priceOf (addToCart cartItems product quantity) product.id
          = some ((priceOf cartItems product.id).getD product.price)
      ∧ ∀ pid, pid ≠ product.id →
          (addToCart cartItems product quantity).filter (fun i => i.product_id == pid)
            = cartItems.filter (fun i => i.product_id == pid) :=
  ⟨qtyOf_addToCart cartItems product quantity,
   priceOf_addToCart cartItems product quantity,
   fun pid hne => filter_addToCart cartItems product quantity pid hne⟩

/-- Witness for C8 on an empty cart and the stock-tracked sample product. -/
theorem addToCart_merges_or_appends_witness :
    (qtyOf (addToCart [] stockProduct 1) stockProduct.id = qtyOf [] stockProduct.id + 1)
      ∧ priceOf (addToCart [] stockProduct 1) stockProduct.id
          = some ((priceOf [] stockProduct.id).getD stockProduct.price)
      ∧ (addToCart [] stockProduct 1).filter (fun i => i.product_id == 2)
          = List.filter (fun i => i.product_id == 2) [] :=
  ⟨(addToCart_merges_or_appends [] stockProduct 1 (by decide)).1,
   (addToCart_merges_or_appends [] stockProduct 1 (by decide)).2.1,
   (addToCart_merges_or_appends [] stockProduct 1 (by decide)).2.2 2 (by decide)⟩

/-- C7 counterexample: with the stock-tracked product of stock 2 and a cart
already holding 2 units, the add call is enabled in both pages, succeeds, and
raises the line to 3 units; no stock error exists and the cart changes. -/
theorem addToCart_exceeds_stock_succeeds :
    stockProduct.made_to_order = false
      ∧ stockProduct.stock_quantity = 2
      ∧ productDetailsAddDisabled stockProduct = false
      ∧ marketplaceAddDisabled stockProduct = false
      ∧ addToCart [⟨1, 2, 10⟩] stockProduct 1 = [⟨1, 3, 10⟩] := by
  decide

/-- C7 as amended: the add operation performs no stock or availability check
and always increases the cumulative quantity by the requested amount; stock
gating exists only as UI disable conditions, where the Marketplace button
never disables a made-to-order product while the ProductDetails button
disables at zero stock even for made-to-order products. -/
theorem addToCart_never_checks_stock (cartItems : List CartItem) (product : Product)
    (quantity : ℕ) :
    qtyOf (addToCart cartItems product quantity) product.id
        = qtyOf cartItems product.id + quantity
      ∧ (∀ p : Product, p.made_to_order = true → marketplaceAddDisabled p = false)
      ∧ (∀ p : Product, p.is_available = true → p.stock_quantity = 0 →
          productDetailsAddDisabled p = true) := by
  refine ⟨qtyOf_addToCart cartItems product quantity, ?_, ?_⟩
  · intro p hp
    simp [marketplaceAddDisabled, hp]
  · intro p hav hstock
    simp [productDetailsAddDisabled, hav, hstock]

/-- Witness for the amended C7 on the made-to-order sample product with
nominal stock zero. -/
theorem addToCart_never_checks_stock_witness :
    qtyOf (addToCart [] madeToOrderProduct 3) madeToOrderProduct.id
        = qtyOf [] madeToOrderProduct.id + 3
      ∧ marketplaceAddDisabled madeToOrderProduct = false
      ∧ productDetailsAddDisabled madeToOrderProduct = true :=
  ⟨(addToCart_never_checks_stock [] madeToOrderProduct 3).1,
   (addToCart_never_checks_stock [] madeToOrderProduct 3).2.1 madeToOrderProduct rfl,
   (addToCart_never_checks_stock [] madeToOrderProduct 3).2.2 madeToOrderProduct rfl rfl⟩

/-! ## Theorems: checkout validation (C4), out-of-range rates (C9) and the
commission setting (C10) -/

/-- C4 counterexample: a cart whose two items reference products of two
different producers is accepted by the payment handler; only emptiness is
checked, so no MixedProducerCart rejection occurs. -/
theorem mixed_producer_cart_accepted :
    (stockProduct.producer_id == otherProducerProduct.producer_id) = false
      ∧ mixedCartRequest.cartItems.map (fun i => i.product_id)
          = [stockProduct.id, otherProducerProduct.id]
      ∧ isOkExcept (createPayment settingsAfterMigrations mixedCartRequest) = true
      ∧ isOkExcept (createPayment adminSettingsSeed mixedCartRequest) = true := by
  decide

/-- C4 as amended: the payment handler rejects exactly the empty cart, with
the error message of the source; it consults no producer ownership, so a
mixed-producer cart proceeds to session creation, and the handler persists no
order rows in either case. -/
theorem createPayment_rejects_only_empty_cart (settings : List (String × String))
    (req : PaymentRequest) :
    createPayment settings req = .error "No items in cart" ↔ req.cartItems = [] := by
  cases h : req.cartItems with
  | nil => simp [createPayment, h]
  | cons a l => simp [createPayment, h]

/-- Witness for the amended C4: the empty request is rejected. -/
theorem createPayment_rejects_only_empty_cart_witness :
    createPayment settingsAfterMigrations emptyCartRequest = .error "No items in cart" :=
  (createPayment_rejects_only_empty_cart settingsAfterMigrations emptyCartRequest).mpr rfl

/-- C9 counterexample: at price 100 and the out-of-range rate 150 the pricing
code computes a commission of 150 and earnings of minus 50 instead of
rejecting; the result also differs from the values at the clamped rates 100
and 0, so no clamping occurs either. -/
theorem pricing_accepts_out_of_range_rate :
    commissionAmount 100 150 = 150
      ∧ producerEarnings 100 150 = -50
      ∧ (commissionAmount 100 150 == commissionAmount 100 100) = false
      ∧ (commissionAmount 100 150 == commissionAmount 100 0) = false := by
  refine ⟨?_, ?_, ?_, ?_⟩ <;> norm_num [commissionAmount, producerEarnings]

/-- C9 as amended: for every rate outside [0,100] the pricing code still
computes commission p times r over 100 and earnings p minus that commission,
with no rejection and no clamping; the payment handler likewise parses the
configured rate without any range validation. -/
theorem pricing_computes_any_rate (p r : ℚ) (hr : r < 0 ∨ 100 < r) :
    commissionAmount p r = p * r / 100
      ∧ producerEarnings p r = p - p * r / 100 := by
  constructor
  · simp [commissionAmount]
    ring
  · simp [producerEarnings, commissionAmount]
    ring

/-- Witness for the amended C9 at price 100 and rate 150. -/
theorem pricing_computes_any_rate_witness :
    commissionAmount 100 150 = 100 * 150 / 100
      ∧ producerEarnings 100 150 = 100 - 100 * 150 / 100 :=
  pricing_computes_any_rate 100 150 (Or.inr (by norm_num))

/-- C10 counterexample: the migration history does seed a commission_rate
row, with value 5, so the setting is not absent from the seeded platform
settings. -/
theorem commission_rate_seeded_by_migration :
    lookupSetting adminSettingsSeed "commission_rate" = none
      ∧ lookupSetting settingsAfterMigrations "commission_rate" = some "5"
      ∧ lookupSetting adminSettingsSeed "transaction_fee_percent" = some "12" := by
  decide

/-- C10 as amended: the handler reads the commission_rate setting and
defaults to 5 when the row is absent; the initialization seed lacks the row,
but migration 20250821002113 seeds it with value 5, so every checkout session
carries a commission rate of 5 percent under either settings state. -/
theorem commission_rate_resolves_to_five :
    commissionRateOf adminSettingsSeed = 5
      ∧ commissionRateOf settingsAfterMigrations = 5
      ∧ ∀ (req : PaymentRequest) (s : CheckoutSession),
          createPayment adminSettingsSeed req = .ok s
              ∨ createPayment settingsAfterMigrations req = .ok s →
            s.metadata.commission_rate = 5 := by
  refine ⟨by decide, by decide, ?_⟩
  intro req s h
  cases h with
  | inl h =>
      by_cases hempty : req.cartItems.isEmpty
      · simp [createPayment, hempty] at h
      · simp only [createPayment, hempty, if_false, Bool.false_eq_true] at h
        cases h
        have : commissionRateOf adminSettingsSeed = 5 := by decide
        simp [this]
  | inr h =>
      by_cases hempty : req.cartItems.isEmpty
      · simp [createPayment, hempty] at h
      · simp only [createPayment, hempty, if_false, Bool.false_eq_true] at h
        cases h
        have : commissionRateOf settingsAfterMigrations = 5 := by decide
        simp [this]

/-- Witness for the amended C10 on the single-item request. -/
theorem commission_rate_resolves_to_five_witness :
    singleItemSession.metadata.commission_rate = 5 :=
  commission_rate_resolves_to_five.2.2 singleItemRequest singleItemSession
    (Or.inl (by
      have hrate : commissionRateOf adminSettingsSeed = 5 := by decide
      norm_num [createPayment, singleItemRequest, singleItemSession, hrate]))

/-! ## Theorems: order creation and status transitions (C2) -/

/-- C2 counterexample: the review-form order insert creates an order whose
status is completed at creation time, not pending; moreover the admin select
offers the status preparing, outside the claimed transition set, and offers
pending for a completed order, so completed is not terminal. -/
theorem dummy_order_created_completed :
    (dummyReviewOrder 1 2).status = "completed"
      ∧ ((dummyReviewOrder 1 2).status == "pending") = false
      ∧ "preparing" ∈ adminStatusOptions
      ∧ "pending" ∈ adminOrderTransitions "completed" := by
  decide

/-- C2 as amended: the checkout flow persists no order at all; the only order
inserts in the source are the dummy review orders, created directly in the
completed status; the producer dashboard offers exactly the transitions
pending to confirmed, pending to cancelled and confirmed to completed, with
no confirmed to cancelled action; and the admin dashboard can assign any of
the six listed statuses regardless of the current status, so completed and
cancelled are not terminal. -/
theorem order_status_transitions_amended :
    (∀ cid pid, (dummyReviewOrder cid pid).status = "completed")
      ∧ producerOrderTransitions "pending" = ["confirmed", "cancelled"]
      ∧ producerOrderTransitions "confirmed" = ["completed"]
      ∧ producerOrderTransitions "completed" = []
      ∧ producerOrderTransitions "cancelled" = []
      ∧ (∀ s, adminOrderTransitions s = adminStatusOptions) :=
  ⟨fun _ _ => rfl, by decide, by decide, by decide, by decide, fun _ => rfl⟩

/-! ## Theorems: rating recomputation (C5) and the recompute invariant (C6) -/

/-- C5: the recomputation writes the average of the review ratings and their
count onto the profile, and it is idempotent: applying it twice with the same
review set equals applying it once, since the result depends only on the
current review set. -/
theorem recomputeProducerRating_idempotent (reviews : List ReviewRow)
    (profile : ProducerProfile) :
    applyRecompute reviews (applyRecompute reviews profile) = applyRecompute reviews profile
      ∧ (applyRecompute reviews profile).rating
          = sumRatings reviews / (reviews.length : ℚ)
      ∧ (applyRecompute reviews profile).review_count = reviews.length :=
  ⟨rfl, rfl, rfl⟩

/-- C6 counterexample: starting from a consistent state, a submission through
the producer review form path inserts the review but leaves the stored
profile untouched, so the stored count 0 differs from the one review now in
the set and the summary is stale. -/
theorem producer_review_path_skips_recompute :
    summaryConsistent emptyMarketState 2
      ∧ (producerReviewFormSubmit emptyMarketState 1 2 5 none).profile
          = emptyMarketState.profile
      ∧ ((producerReviewFormSubmit emptyMarketState 1 2 5 none).reviews.filter
            (fun x => x.producer_id == 2)).length = 1
      ∧ ((producerReviewFormSubmit emptyMarketState 1 2 5 none).profile.review_count
            == ((producerReviewFormSubmit emptyMarketState 1 2 5 none).reviews.filter
                  (fun x => x.producer_id == 2)).length) = false := by
  refine ⟨?_, rfl, by decide, by decide⟩
  constructor
  · norm_num [summaryConsistent, emptyMarketState, sumRatings]
  · rfl

/-- C6 as amended: only the order review form recomputes the summary after
its insert, restoring consistency for the reviewed producer; the producer
review form and the product review form insert the review and leave the
stored profile unchanged, so the summary goes stale on those paths. -/
theorem review_paths_recompute_amended (st : MarketState) (producerId : ℕ)
    (r : ReviewRow) (cid pid prodId rating : ℕ) (comment : Option String) :
    summaryConsistent (reviewFormSubmit st producerId r) producerId
      ∧ (producerReviewFormSubmit st cid pid rating comment).profile = st.profile
      ∧ (productReviewFormSubmit st cid pid prodId rating comment).profile = st.profile :=
  ⟨⟨rfl, rfl⟩, rfl, rfl⟩

/-! ## Theorems: the review eligibility gate (C3) -/

/-- Shape of a successful gate submission: orders are untouched, exactly the
one review row is appended, the rating was in range, the order was found with
the consumer and completed checks passing, and no duplicate key existed. -/
theorem submitReview_ok_shape (db : ReviewDb) (cid pid rating oid : ℕ)
    (prodId : Option ℕ) (comment : Option String) (db2 : ReviewDb)
    (h : submitReview db cid pid rating oid prodId comment = .ok db2) :
    db2.orders = db.orders
      ∧ db2.reviews = db.reviews ++
          [{ consumer_id := cid, producer_id := pid, product_id := prodId,
             order_id := some oid, rating := rating, comment := comment }]
      ∧ ¬(rating < 1 ∨ 5 < rating)
      ∧ ∃ op, db.orders.find? (fun o => o.1 == oid) = some op
          ∧ (op.2.consumer_id = cid ∧ canReview op.2 = true)
          ∧ db.reviews.any (fun r => sameReviewKey r cid (some oid) prodId) = false := by
  unfold submitReview at h
  split at h
  · exact absurd h (by simp)
  next hrange =>
    split at h
    next hfind => exact absurd h (by simp)
    next op hfind =>
      split at h
      next hcond =>
        split at h
        next hdup => exact absurd h (by simp)
        next hdup =>
          injection h with h2
          have hany : db.reviews.any
              (fun r => sameReviewKey r cid (some oid) prodId) = false := by
            cases hb : db.reviews.any (fun r => sameReviewKey r cid (some oid) prodId) with
            | false => rfl
            | true => exact absurd hb hdup
          exact ⟨by rw [← h2], by rw [← h2], hrange, op, hfind, hcond, hany⟩
      next hcond => exact absurd h (by simp)

/-- Duplicate-key submissions fail with the conflict error and return no
updated database. -/
theorem submitReview_conflict_of_dup (db : ReviewDb) (cid pid rating oid : ℕ)
    (prodId : Option ℕ) (comment : Option String)
    (op : ℕ × Order)
    (hrange : ¬(rating < 1 ∨ 5 < rating))
    (hfind : db.orders.find? (fun o => o.1 == oid) = some op)
    (hcond : op.2.consumer_id = cid ∧ canReview op.2 = true)
    (hdup : db.reviews.any (fun r => sameReviewKey r cid (some oid) prodId) = true) :
    submitReview db cid pid rating oid prodId comment = .error .conflict := by
  unfold submitReview
  rw [if_neg hrange, hfind]
  simp [hcond.1, hcond.2, hdup]

/-- C3: a gate submission succeeds only when the rating is in range, the
order exists, belongs to the submitting consumer and is completed, and no
review with the same consumer, order and product-or-null key exists; and
immediately resubmitting the same key after a success fails with the conflict
error instead of inserting a second row. -/
theorem submitReview_gate_correct (db : ReviewDb) (cid pid rating oid : ℕ)
    (prodId : Option ℕ) (comment : Option String) :
    (∀ db2, submitReview db cid pid rating oid prodId comment = .ok db2 →
        (1 ≤ rating ∧ rating ≤ 5)
          ∧ (∃ o, (oid, o) ∈ db.orders ∧ o.consumer_id = cid ∧ o.status = "completed")
          ∧ (∀ rv ∈ db.reviews, sameReviewKey rv cid (some oid) prodId = false))
      ∧ (∀ db2, submitReview db cid pid rating oid prodId comment = .ok db2 →
          submitReview db2 cid pid rating oid prodId comment = .error .conflict) := by
  constructor
  · intro db2 h
    obtain ⟨-, -, hrange, op, hfind, hcond, hany⟩ :=
      submitReview_ok_shape db cid pid rating oid prodId comment db2 h
    push_neg at hrange
    refine ⟨⟨hrange.1, hrange.2⟩, ?_, ?_⟩
    · have hmem := List.mem_of_find?_eq_some hfind
      have hkey : op.1 = oid := by simpa using List.find?_some hfind
      refine ⟨op.2, ?_, hcond.1, ?_⟩
      · rw [← hkey]
        exact hmem
      · simpa [canReview] using hcond.2
    · intro rv hrv
      cases hk : sameReviewKey rv cid (some oid) prodId with
      | false => rfl
      | true =>
          have : db.reviews.any (fun r => sameReviewKey r cid (some oid) prodId) = true :=
            List.any_eq_true.mpr ⟨rv, hrv, hk⟩
          rw [this] at hany
          exact absurd hany (by simp)
  · intro db2 h
    obtain ⟨horders, hreviews, hrange, op, hfind, hcond, -⟩ :=
      submitReview_ok_shape db cid pid rating oid prodId comment db2 h
    have hfind2 : db2.orders.find? (fun o => o.1 == oid) = some op := by
      rw [horders]; exact hfind
    have hdup2 : db2.reviews.any (fun r => sameReviewKey r cid (some oid) prodId) = true := by
      rw [hreviews, List.any_append]
      have : sameReviewKey
          { consumer_id := cid, producer_id := pid, product_id := prodId,
            order_id := some oid, rating := rating, comment := comment }
          cid (some oid) prodId = true := by
        simp [sameReviewKey]
      simp [this]
    exact submitReview_conflict_of_dup db2 cid pid rating oid prodId comment op
      hrange hfind2 hcond hdup2

/-- Witness for C3 on the one-order database: the first submission of
consumer 1 for completed order 1 succeeds and the identical resubmission
fails with the conflict error. -/
theorem submitReview_gate_correct_witness :
    (1 ≤ 5 ∧ 5 ≤ 5)
      ∧ (∃ o, (1, o) ∈ gateDb.orders ∧ o.consumer_id = 1 ∧ o.status = "completed")
      ∧ submitReview gateDbAfter 1 2 5 1 none none = .error .conflict := by
  have hok : submitReview gateDb 1 2 5 1 none none = .ok gateDbAfter := by decide
  refine ⟨?_, ?_, ?_⟩
  · exact ((submitReview_gate_correct gateDb 1 2 5 1 none none).1 gateDbAfter hok).1
  · exact ((submitReview_gate_correct gateDb 1 2 5 1 none none).1 gateDbAfter hok).2.1
  · exact (submitReview_gate_correct gateDb 1 2 5 1 none none).2 gateDbAfter hok

end CommunityFeast
